import Mathlib

/-
Verification of the Auth_test_Api CRUD layer.

The development shallowly embeds the Python services and route handlers of
the repository (app/services/profile_service.py, app/services/test_service.py,
app/services/question_service.py, app/routes/profile.py, app/routes/test.py,
app/routes/question.py, app/models.py) as pure Lean functions over an explicit
database state.  The remote relational store is modelled as lists of rows per
table: an eq-filter is List.filter, insert appends a row, update maps an
in-place field rewrite over the matching rows and returns them, ordering is a
stable sort on the order key, range-based pagination is drop/take, and
an exact count is the length of the fully filtered list (the storage client
itself, app/database.py, is not under src; its semantics above are modelled
from the spec, section 2: table-scoped insert/select/update with filter
predicates, ordering, range-based pagination, and exact row counts).
Generated ids and timestamps are passed as explicit parameters.  Payload
values represent post-validation pydantic models.  Storage writes are
modelled on their success path; the spec treats a failed write as a generic
Internal error and no claim below is about that path.
-/

namespace AuthTestApi

/-- Role values, from models.py RoleEnum. -/
inductive RoleEnum
  | user
  | institution
deriving DecidableEq

/-- String value of a RoleEnum member, as persisted. -/
def RoleEnum.val : RoleEnum → String
  | .user => "user"
  | .institution => "institution"

/-- Gender values, from models.py GenderEnum. -/
inductive GenderEnum
  | male
  | female
deriving DecidableEq

/-- String value of a GenderEnum member. -/
def GenderEnum.val : GenderEnum → String
  | .male => "Male"
  | .female => "Female"

/-- City values, from models.py CityEnum. -/
inductive CityEnum
  | bhopal
  | indore
deriving DecidableEq

/-- String value of a CityEnum member. -/
def CityEnum.val : CityEnum → String
  | .bhopal => "Bhopal"
  | .indore => "Indore"

/-- State values, from models.py StateEnum. -/
inductive StateEnum
  | madhya_pradesh
deriving DecidableEq

/-- String value of a StateEnum member. -/
def StateEnum.val : StateEnum → String
  | .madhya_pradesh => "Madhya Pradesh"

/-- Country values, from models.py CountryEnum. -/
inductive CountryEnum
  | india
deriving DecidableEq

/-- String value of a CountryEnum member. -/
def CountryEnum.val : CountryEnum → String
  | .india => "India"

/-- Difficulty values, from models.py DifficultyEnum. -/
inductive DifficultyEnum
  | easy
  | medium
  | hard
deriving DecidableEq

/-- String value of a DifficultyEnum member. -/
def DifficultyEnum.val : DifficultyEnum → String
  | .easy => "easy"
  | .medium => "medium"
  | .hard => "hard"

/-- Correct-option values, from models.py CorrectOptionEnum. -/
inductive CorrectOptionEnum
  | a
  | b
  | c
  | d
deriving DecidableEq

/-- String value of a CorrectOptionEnum member. -/
def CorrectOptionEnum.val : CorrectOptionEnum → String
  | .a => "a"
  | .b => "b"
  | .c => "c"
  | .d => "d"

/-- Programming-language values, from models.py ProgrammingLanguageEnum. -/
inductive ProgrammingLanguageEnum
  | python
  | javascript
  | java
  | cpp
  | c
deriving DecidableEq

/-- String value of a ProgrammingLanguageEnum member. -/
def ProgrammingLanguageEnum.val : ProgrammingLanguageEnum → String
  | .python => "python"
  | .javascript => "javascript"
  | .java => "java"
  | .cpp => "cpp"
  | .c => "c"

/-- A row of the profiles table.  Ids are modelled as Nat (the code only ever
compares their string forms for equality), dates and datetimes as the String
the service serializes them to, and timestamps used for ordering as Nat. -/
structure ProfileRow where
  id : Nat
  user_id : Nat
  full_name : String
  email : String
  phone : Option String
  bio : Option String
  date_of_birth : String
  avatar_url : Option String
  gender : Option String
  city : Option String
  state : String
  country : String
  role : String
  is_active : Bool
  created_at : Nat
  updated_at : Nat
deriving DecidableEq

/-- A row of the tests table. -/
structure TestRow where
  id : Nat
  title : String
  description : Option String
  difficulty : String
  duration_minutes : Nat
  total_marks : Nat
  passing_marks : Nat
  created_by : Nat
  is_active : Bool
  is_published : Bool
  start_time : Option String
  end_time : Option String
  created_at : Nat
  updated_at : Nat
deriving DecidableEq

/-- A row of the questions base table. -/
structure QuestionRow where
  id : Nat
  test_id : Nat
  question_type : String
  question_text : String
  marks : Nat
  order_no : Nat
  is_active : Bool
  created_at : Nat
deriving DecidableEq

/-- A row of the mcq_options detail table. -/
structure MCQOptionsRow where
  question_id : Nat
  option_a : String
  option_b : String
  option_c : String
  option_d : String
  correct_option : String
  explanation : Option String
deriving DecidableEq

/-- A row of the theory_details detail table. -/
structure TheoryDetailsRow where
  question_id : Nat
  word_limit : Nat
  sample_answer : Option String
  keywords : Option (List String)
deriving DecidableEq

/-- A row of the coding_details detail table; test_cases holds the JSON blob
the service serializes the test case list to. -/
structure CodingDetailsRow where
  question_id : Nat
  programming_language : String
  starter_code : Option String
  solution_code : Option String
  time_limit_seconds : Nat
  memory_limit_mb : Nat
  test_cases : String
deriving DecidableEq

/-- A row of the test_attempts table (only counted by the services). -/
structure AttemptRow where
  id : Nat
  test_id : Nat
  user_id : Nat
  status : String
deriving DecidableEq

/-- The state of the relational store: one list of rows per table, in table
order (inserts append, updates rewrite in place). -/
structure DB where
  profiles : List ProfileRow
  tests : List TestRow
  questions : List QuestionRow
  mcq_options : List MCQOptionsRow
  theory_details : List TheoryDetailsRow
  coding_details : List CodingDetailsRow
  test_attempts : List AttemptRow
deriving DecidableEq

/-- The ProfileCreate payload from models.py (post validation: email already
lower-cased, date_of_birth an ISO date string). -/
structure ProfileCreate where
  user_id : Nat
  full_name : String
  email : String
  phone : Option String
  bio : Option String
  date_of_birth : String
  avatar_url : Option String
  gender : Option GenderEnum
  city : Option CityEnum
  state : StateEnum
  country : CountryEnum
  role : RoleEnum
deriving DecidableEq

/-- The ProfileUpdate payload from models.py.  A field set to none is absent
from the model_dump(exclude_none=True) dict.  The address field exists on the
payload model but has no column in the profiles table of the data model. -/
structure ProfileUpdate where
  full_name : Option String
  phone : Option String
  bio : Option String
  avatar_url : Option String
  date_of_birth : Option String
  gender : Option GenderEnum
  address : Option String
  city : Option CityEnum
  state : Option StateEnum
  country : Option CountryEnum
  is_active : Option Bool
  role : Option RoleEnum
deriving DecidableEq

/-- Whether model_dump(exclude_none=True) of a ProfileUpdate is empty, the
condition `if not data` tests in ProfileService.update_profile. -/
def ProfileUpdate.isEmptyDump (u : ProfileUpdate) : Bool :=
  u.full_name.isNone && u.phone.isNone && u.bio.isNone && u.avatar_url.isNone &&
  u.date_of_birth.isNone && u.gender.isNone && u.address.isNone && u.city.isNone &&
  u.state.isNone && u.country.isNone && u.is_active.isNone && u.role.isNone

/-- Effect of the profiles-table update statement built from a non-empty
ProfileUpdate dump on one matching row: exactly the present fields are
written (enum members written as their string value, mirroring
_convert_enums); absent fields keep their stored value.  The address entry
has no profiles column to land in. -/
def applyProfileUpdate (u : ProfileUpdate) (r : ProfileRow) : ProfileRow :=
  { r with
    full_name := u.full_name.getD r.full_name
    phone := match u.phone with | some v => some v | none => r.phone
    bio := match u.bio with | some v => some v | none => r.bio
    avatar_url := match u.avatar_url with | some v => some v | none => r.avatar_url
    date_of_birth := u.date_of_birth.getD r.date_of_birth
    gender := match u.gender with | some v => some v.val | none => r.gender
    city := match u.city with | some v => some v.val | none => r.city
    state := match u.state with | some v => v.val | none => r.state
    country := match u.country with | some v => v.val | none => r.country
    is_active := u.is_active.getD r.is_active
    role := match u.role with | some v => v.val | none => r.role }

/-- Row inserted by ProfileService.create_profile: payload fields after
_convert_enums, user_id forcibly overwritten with the authenticated id, id
and timestamps generated by the store. -/
def profileRowOfCreate (pd : ProfileCreate) (uid pid now : Nat) : ProfileRow :=
  { id := pid
    user_id := uid
    full_name := pd.full_name
    email := pd.email
    phone := pd.phone
    bio := pd.bio
    date_of_birth := pd.date_of_birth
    avatar_url := pd.avatar_url
    gender := pd.gender.map GenderEnum.val
    city := pd.city.map CityEnum.val
    state := pd.state.val
    country := pd.country.val
    role := pd.role.val
    is_active := true
    created_at := now
    updated_at := now }

/-- ProfileService.get_profile_by_user_id: first profiles row whose user_id
matches, or none. -/
def ProfileService.get_profile_by_user_id (db : DB) (uid : Nat) : Option ProfileRow :=
  (db.profiles.filter (fun r => r.user_id = uid)).head?

/-- ProfileService.create_profile: raises (Except.error) if any profiles row
already has this user_id, otherwise inserts the converted payload linked to
user_id and returns the inserted row. -/
def ProfileService.create_profile (db : DB) (pd : ProfileCreate) (uid pid now : Nat) :
    Except String (Option ProfileRow) × DB :=
  if db.profiles.filter (fun r => r.user_id = uid) ≠ [] then
    (.error "Profile already exists for this user", db)
  else
    let row := profileRowOfCreate pd uid pid now
    (.ok (some row), { db with profiles := db.profiles ++ [row] })

/-- The combined filter set of ProfileService.get_all_profiles: zero or more
exact-match filters ANDed in source order (is_active only when not None,
role/city/gender only when truthy, modelled as present). -/
def ProfileService.profileFilters (db : DB) (is_active : Option Bool)
    (role city gender : Option String) : List ProfileRow :=
  let q1 : List ProfileRow := match is_active with
    | some b => db.profiles.filter (fun r => r.is_active = b)
    | none => db.profiles
  let q2 : List ProfileRow := match role with
    | some s => q1.filter (fun r => r.role = s)
    | none => q1
  let q3 : List ProfileRow := match city with
    | some s => q2.filter (fun r => r.city = some s)
    | none => q2
  match gender with
  | some s => q3.filter (fun r => r.gender = some s)
  | none => q3

/-- ProfileService.get_all_profiles: filters, orders by created_at
descending, slices range(offset, offset+limit-1) with offset=(page-1)*limit,
and returns the page rows with the exact count of all matching rows (falling
back to the page length when the count is zero, mirroring
`res.count if res.count else len(res.data)`). -/
def ProfileService.get_all_profiles (db : DB) (page limit : Nat) (is_active : Option Bool)
    (role city gender : Option String) : List ProfileRow × Nat :=
  let offset := (page - 1) * limit
  let matched := ProfileService.profileFilters db is_active role city gender
  let ordered := matched.insertionSort (fun x y => y.created_at ≤ x.created_at)
  let pageRows := (ordered.drop offset).take limit
  let total := if matched.length ≠ 0 then matched.length else pageRows.length
  (pageRows, total)

/-- ProfileService.update_profile: on an empty dump, returns the current row
without touching the store; otherwise rewrites the present fields on every
profiles row whose user_id matches and returns the first rewritten row. -/
def ProfileService.update_profile (db : DB) (uid : Nat) (u : ProfileUpdate) :
    Option ProfileRow × DB :=
  if ProfileUpdate.isEmptyDump u then
    (ProfileService.get_profile_by_user_id db uid, db)
  else
    let matched := db.profiles.filter (fun r => r.user_id = uid)
    let db1 : DB := { db with
      profiles := db.profiles.map (fun r =>
        if r.user_id = uid then applyProfileUpdate u r else r) }
    ((matched.head?).map (applyProfileUpdate u), db1)

/-- ProfileService.delete_profile: soft delete, sets is_active to false on
every row whose user_id matches and reports whether any row was affected. -/
def ProfileService.delete_profile (db : DB) (uid : Nat) : Bool × DB :=
  let matched := db.profiles.filter (fun r => r.user_id = uid)
  let db1 : DB := { db with
    profiles := db.profiles.map (fun r =>
      if r.user_id = uid then { r with is_active := false } else r) }
  (matched.length > 0, db1)

/-- An HTTP error raised by a route handler (HTTPException). -/
structure HTTPError where
  status : Nat
  detail : String
deriving DecidableEq

/-- The authenticated principal resolved from the bearer token. -/
structure Principal where
  id : Nat
  role : String
deriving DecidableEq

/-- Modelled from the spec: app/auth/dependencies.py is not under src.  Per
section 6 of the spec, role-gated endpoints return Forbidden (403) when the
principal role does not match the required role; otherwise the principal is
handed to the route body. -/
def requireRole (required : String) (p : Principal) : Except HTTPError Principal :=
  if p.role = required then .ok p else .error ⟨403, "Forbidden"⟩

/-- Route POST /profiles (app/routes/profile.py create_profile): any
authenticated user; rejects with 400 when a profile already exists for the
principal, otherwise delegates to the service (a service-level failure to
return a row surfaces as 500). -/
def ProfileRoutes.create_profile (db : DB) (p : Principal) (pd : ProfileCreate)
    (pid now : Nat) : Except HTTPError ProfileRow × DB :=
  match ProfileService.get_profile_by_user_id db p.id with
  | some _ => (.error ⟨400, "Profile already exists for this user"⟩, db)
  | none =>
    match ProfileService.create_profile db pd p.id pid now with
    | (.error e, db1) => (.error ⟨500, e⟩, db1)
    | (.ok none, db1) => (.error ⟨500, "Failed to create profile"⟩, db1)
    | (.ok (some row), db1) => (.ok row, db1)

/-- The TestUpdate payload from models.py; every field optional, absent
fields excluded from the dump. -/
structure TestUpdate where
  title : Option String
  description : Option String
  difficulty : Option DifficultyEnum
  duration_minutes : Option Nat
  total_marks : Option Nat
  passing_marks : Option Nat
  is_active : Option Bool
  is_published : Option Bool
  start_time : Option String
  end_time : Option String
deriving DecidableEq

/-- Whether model_dump(exclude_none=True) of a TestUpdate is empty, the
condition `if not data` tests in TestService.update_test. -/
def TestUpdate.isEmptyDump (u : TestUpdate) : Bool :=
  u.title.isNone && u.description.isNone && u.difficulty.isNone &&
  u.duration_minutes.isNone && u.total_marks.isNone && u.passing_marks.isNone &&
  u.is_active.isNone && u.is_published.isNone && u.start_time.isNone &&
  u.end_time.isNone

/-- Effect of the tests-table update statement built from a non-empty
TestUpdate dump on one matching row: present fields are written (difficulty
as its enum string value, datetimes as their isoformat string), absent fields
keep their stored value. -/
def applyTestUpdate (u : TestUpdate) (r : TestRow) : TestRow :=
  { r with
    title := u.title.getD r.title
    description := match u.description with | some v => some v | none => r.description
    difficulty := match u.difficulty with | some v => v.val | none => r.difficulty
    duration_minutes := u.duration_minutes.getD r.duration_minutes
    total_marks := u.total_marks.getD r.total_marks
    passing_marks := u.passing_marks.getD r.passing_marks
    is_active := u.is_active.getD r.is_active
    is_published := u.is_published.getD r.is_published
    start_time := match u.start_time with | some v => some v | none => r.start_time
    end_time := match u.end_time with | some v => some v | none => r.end_time }

/-- The dict TestService.get_test_by_id returns: the tests row augmented
with the computed question_count key. -/
structure TestWithCount where
  row : TestRow
  question_count : Nat
deriving DecidableEq

/-- TestService.get_test_by_id: first tests row whose id matches (no
is_active filter), augmented with the exact count of questions rows whose
test_id matches (no is_active filter on the count either; a zero count falls
through `q_response.count if q_response.count else 0` to the literal 0). -/
def TestService.get_test_by_id (db : DB) (tid : Nat) : Option TestWithCount :=
  match (db.tests.filter (fun r => r.id = tid)).head? with
  | none => none
  | some t =>
    let cnt := (db.questions.filter (fun q => q.test_id = tid)).length
    some ⟨t, if cnt ≠ 0 then cnt else 0⟩

/-- The combined filter set of TestService.get_all_tests: optional
is_published and created_by exact matches, then always is_active = true. -/
def TestService.testFilters (db : DB) (is_published : Option Bool)
    (created_by : Option Nat) : List TestRow :=
  let q1 : List TestRow := match is_published with
    | some b => db.tests.filter (fun r => r.is_published = b)
    | none => db.tests
  let q2 : List TestRow := match created_by with
    | some c => q1.filter (fun r => r.created_by = c)
    | none => q1
  q2.filter (fun r => r.is_active = true)

/-- TestService.get_all_tests: filters, orders by created_at descending,
slices range(offset, offset+limit-1) with offset=(page-1)*limit, and returns
the page rows with the exact count of all matching rows (falling back to the
page length when the count is zero). -/
def TestService.get_all_tests (db : DB) (page limit : Nat) (is_published : Option Bool)
    (created_by : Option Nat) : List TestRow × Nat :=
  let offset := (page - 1) * limit
  let matched := TestService.testFilters db is_published created_by
  let ordered := matched.insertionSort (fun x y => y.created_at ≤ x.created_at)
  let pageRows := (ordered.drop offset).take limit
  let total := if matched.length ≠ 0 then matched.length else pageRows.length
  (pageRows, total)

/-- The dict TestService.update_test returns: the raw updated row on a
non-empty dump, the get_test_by_id dict (row plus question_count) on an
empty dump. -/
inductive TestDict
  | plain (row : TestRow)
  | withCount (row : TestRow) (question_count : Nat)
deriving DecidableEq

/-- TestService.update_test: on an empty dump, returns get_test_by_id
without touching the store; otherwise rewrites the present fields on every
tests row whose id matches and returns the first rewritten row. -/
def TestService.update_test (db : DB) (tid : Nat) (u : TestUpdate) :
    Option TestDict × DB :=
  if TestUpdate.isEmptyDump u then
    ((TestService.get_test_by_id db tid).map (fun tc =>
      TestDict.withCount tc.row tc.question_count), db)
  else
    let matched := db.tests.filter (fun r => r.id = tid)
    let db1 : DB := { db with
      tests := db.tests.map (fun r =>
        if r.id = tid then applyTestUpdate u r else r) }
    (((matched.head?).map (applyTestUpdate u)).map TestDict.plain, db1)

/-- TestService.delete_test: soft delete, sets is_active to false on every
tests row whose id matches and reports whether any row was affected. -/
def TestService.delete_test (db : DB) (tid : Nat) : Bool × DB :=
  let matched := db.tests.filter (fun r => r.id = tid)
  let db1 : DB := { db with
    tests := db.tests.map (fun r =>
      if r.id = tid then { r with is_active := false } else r) }
  (matched.length > 0, db1)

/-- TestService.publish_test: unconditionally sets is_published to true on
every tests row whose id matches and returns the first updated row. -/
def TestService.publish_test (db : DB) (tid : Nat) : Option TestRow × DB :=
  let matched := db.tests.filter (fun r => r.id = tid)
  let db1 : DB := { db with
    tests := db.tests.map (fun r =>
      if r.id = tid then { r with is_published := true } else r) }
  ((matched.head?).map (fun r => { r with is_published := true }), db1)

/-- TestService.unpublish_test: unconditionally sets is_published to false on
every tests row whose id matches and returns the first updated row. -/
def TestService.unpublish_test (db : DB) (tid : Nat) : Option TestRow × DB :=
  let matched := db.tests.filter (fun r => r.id = tid)
  let db1 : DB := { db with
    tests := db.tests.map (fun r =>
      if r.id = tid then { r with is_published := false } else r) }
  ((matched.head?).map (fun r => { r with is_published := false }), db1)

/-- Route GET /tests/{id} (app/routes/test.py get_test): no authentication
dependency and no ownership check; 404 when the test is missing. -/
def TestRoutes.get_test (db : DB) (tid : Nat) : Except HTTPError TestWithCount :=
  match TestService.get_test_by_id db tid with
  | none => .error ⟨404, "Test not found!"⟩
  | some t => .ok t

/-- Route PUT /tests/{id} (app/routes/test.py update_test): institution role
required, 404 when missing, 403 when the principal is not the creator,
otherwise delegates to the service. -/
def TestRoutes.update_test (db : DB) (tid : Nat) (u : TestUpdate) (p : Principal) :
    Except HTTPError (Option TestDict) × DB :=
  match requireRole "institution" p with
  | .error e => (.error e, db)
  | .ok _ =>
    match TestService.get_test_by_id db tid with
    | none => (.error ⟨404, "Test not found!"⟩, db)
    | some existing =>
      if existing.row.created_by ≠ p.id then
        (.error ⟨403, "Not authorized to update this test"⟩, db)
      else
        let r := TestService.update_test db tid u
        (.ok r.1, r.2)

/-- Route POST /tests/{id}/publish (app/routes/test.py publish_test). -/
def TestRoutes.publish_test (db : DB) (tid : Nat) (p : Principal) :
    Except HTTPError (Option TestRow) × DB :=
  match requireRole "institution" p with
  | .error e => (.error e, db)
  | .ok _ =>
    match TestService.get_test_by_id db tid with
    | none => (.error ⟨404, "Test not found!"⟩, db)
    | some existing =>
      if existing.row.created_by ≠ p.id then
        (.error ⟨403, "Not authorized"⟩, db)
      else
        let r := TestService.publish_test db tid
        (.ok r.1, r.2)

/-- Route POST /tests/{id}/unpublish (app/routes/test.py unpublish_test). -/
def TestRoutes.unpublish_test (db : DB) (tid : Nat) (p : Principal) :
    Except HTTPError (Option TestRow) × DB :=
  match requireRole "institution" p with
  | .error e => (.error e, db)
  | .ok _ =>
    match TestService.get_test_by_id db tid with
    | none => (.error ⟨404, "Test not found!"⟩, db)
    | some existing =>
      if existing.row.created_by ≠ p.id then
        (.error ⟨403, "Not authorized"⟩, db)
      else
        let r := TestService.unpublish_test db tid
        (.ok r.1, r.2)

/-- Route DELETE /tests/{id} (app/routes/test.py delete_test): returns the
deleted id on success. -/
def TestRoutes.delete_test (db : DB) (tid : Nat) (p : Principal) :
    Except HTTPError Nat × DB :=
  match requireRole "institution" p with
  | .error e => (.error e, db)
  | .ok _ =>
    match TestService.get_test_by_id db tid with
    | none => (.error ⟨404, "Test not found!"⟩, db)
    | some existing =>
      if existing.row.created_by ≠ p.id then
        (.error ⟨403, "Not authorized"⟩, db)
      else
        let r : Bool × DB := TestService.delete_test db tid
        if r.1 then (.ok tid, r.2) else (.error ⟨500, "Failed to delete"⟩, r.2)

/-- The MCQOptionCreate payload from models.py. -/
structure MCQOptionCreate where
  option_a : String
  option_b : String
  option_c : String
  option_d : String
  correct_option : CorrectOptionEnum
  explanation : Option String
deriving DecidableEq

/-- The MCQQuestionCreate payload from models.py. -/
structure MCQQuestionCreate where
  test_id : Nat
  question_text : String
  marks : Nat
  order_no : Nat
  options : MCQOptionCreate
deriving DecidableEq

/-- The MCQOptionUpdate payload from models.py. -/
structure MCQOptionUpdate where
  option_a : Option String
  option_b : Option String
  option_c : Option String
  option_d : Option String
  correct_option : Option CorrectOptionEnum
  explanation : Option String
deriving DecidableEq

/-- Whether model_dump(exclude_none=True) of an MCQOptionUpdate is empty. -/
def MCQOptionUpdate.isEmptyDump (u : MCQOptionUpdate) : Bool :=
  u.option_a.isNone && u.option_b.isNone && u.option_c.isNone &&
  u.option_d.isNone && u.correct_option.isNone && u.explanation.isNone

/-- Effect of the mcq_options update statement built from a non-empty
MCQOptionUpdate dump on one matching row (correct_option written as its enum
string value). -/
def applyMCQOptionUpdate (u : MCQOptionUpdate) (o : MCQOptionsRow) : MCQOptionsRow :=
  { o with
    option_a := u.option_a.getD o.option_a
    option_b := u.option_b.getD o.option_b
    option_c := u.option_c.getD o.option_c
    option_d := u.option_d.getD o.option_d
    correct_option := match u.correct_option with | some v => v.val | none => o.correct_option
    explanation := match u.explanation with | some v => some v | none => o.explanation }

/-- The QuestionUpdate payload from models.py (base fields only). -/
structure QuestionUpdate where
  question_text : Option String
  marks : Option Nat
  order_no : Option Nat
  is_active : Option Bool
deriving DecidableEq

/-- Whether model_dump(exclude_none=True) of a QuestionUpdate is empty, the
condition `if not data` tests in QuestionService.update_question. -/
def QuestionUpdate.isEmptyDump (u : QuestionUpdate) : Bool :=
  u.question_text.isNone && u.marks.isNone && u.order_no.isNone && u.is_active.isNone

/-- Effect of the questions-table update statement built from a non-empty
QuestionUpdate dump on one matching row. -/
def applyQuestionUpdate (u : QuestionUpdate) (q : QuestionRow) : QuestionRow :=
  { q with
    question_text := u.question_text.getD q.question_text
    marks := u.marks.getD q.marks
    order_no := u.order_no.getD q.order_no
    is_active := u.is_active.getD q.is_active }

/-- The nested detail a question dict carries: the options key for an MCQ
row, the details key for a theory or coding row, or no such key at all when
the detail row is missing. -/
inductive QuestionDetail
  | missing
  | options (o : MCQOptionsRow)
  | theory (d : TheoryDetailsRow)
  | coding (d : CodingDetailsRow)
deriving DecidableEq

/-- A question dict as assembled by the question service: the base row plus
its nested detail. -/
structure AssembledQuestion where
  base : QuestionRow
  detail : QuestionDetail
deriving DecidableEq

/-- QuestionService.create_mcq_question: inserts the base questions row
(question_type mcq, is_active defaulting to true), then inserts the options
row keyed by the new question id (correct_option as its enum string value),
and returns the base row with the options row nested.  The generated id and
timestamp are explicit parameters. -/
def QuestionService.create_mcq_question (db : DB) (qd : MCQQuestionCreate)
    (qid now : Nat) : Option AssembledQuestion × DB :=
  let qrow : QuestionRow :=
    { id := qid, test_id := qd.test_id, question_type := "mcq",
      question_text := qd.question_text, marks := qd.marks,
      order_no := qd.order_no, is_active := true, created_at := now }
  let orow : MCQOptionsRow :=
    { question_id := qid, option_a := qd.options.option_a,
      option_b := qd.options.option_b, option_c := qd.options.option_c,
      option_d := qd.options.option_d,
      correct_option := qd.options.correct_option.val,
      explanation := qd.options.explanation }
  let db2 : DB := { db with
    questions := db.questions ++ [qrow],
    mcq_options := db.mcq_options ++ [orow] }
  (some ⟨qrow, QuestionDetail.options orow⟩, db2)

/-- The type dispatch shared by the question read paths: fetch and nest the
single detail row matching the question type, or no key when the detail row
is absent or the type is unknown. -/
def QuestionService.attachDetail (db : DB) (q : QuestionRow) : AssembledQuestion :=
  if q.question_type = "mcq" then
    match (db.mcq_options.filter (fun o => o.question_id = q.id)).head? with
    | some o => ⟨q, QuestionDetail.options o⟩
    | none => ⟨q, QuestionDetail.missing⟩
  else if q.question_type = "theory" then
    match (db.theory_details.filter (fun d => d.question_id = q.id)).head? with
    | some d => ⟨q, QuestionDetail.theory d⟩
    | none => ⟨q, QuestionDetail.missing⟩
  else if q.question_type = "coding" then
    match (db.coding_details.filter (fun d => d.question_id = q.id)).head? with
    | some d => ⟨q, QuestionDetail.coding d⟩
    | none => ⟨q, QuestionDetail.missing⟩
  else ⟨q, QuestionDetail.missing⟩

/-- QuestionService.get_question_by_id: first questions row whose id matches
(no is_active filter), with its type-dispatched detail nested; none when the
base row is absent. -/
def QuestionService.get_question_by_id (db : DB) (qid : Nat) : Option AssembledQuestion :=
  match (db.questions.filter (fun q => q.id = qid)).head? with
  | none => none
  | some q => some (QuestionService.attachDetail db q)

/-- QuestionService.get_questions_by_test: active questions of a test,
optionally filtered to one type, ordered by order_no ascending, each with its
nested detail. -/
def QuestionService.get_questions_by_test (db : DB) (tid : Nat)
    (question_type : Option String) : List AssembledQuestion :=
  let q1 : List QuestionRow :=
    (db.questions.filter (fun q => q.test_id = tid)).filter (fun q => q.is_active = true)
  let q2 : List QuestionRow := match question_type with
    | some t => q1.filter (fun q => q.question_type = t)
    | none => q1
  let ordered := q2.insertionSort (fun x y => x.order_no ≤ y.order_no)
  ordered.map (QuestionService.attachDetail db)

/-- QuestionService.update_question: on an empty dump, returns
get_question_by_id without touching the store; otherwise rewrites the
present base fields on every questions row whose id matches, then re-fetches
the assembled question (none when no row matched). -/
def QuestionService.update_question (db : DB) (qid : Nat) (u : QuestionUpdate) :
    Option AssembledQuestion × DB :=
  if QuestionUpdate.isEmptyDump u then
    (QuestionService.get_question_by_id db qid, db)
  else
    let matched := db.questions.filter (fun q => q.id = qid)
    let db1 : DB := { db with
      questions := db.questions.map (fun q =>
        if q.id = qid then applyQuestionUpdate u q else q) }
    (if matched.length > 0 then QuestionService.get_question_by_id db1 qid else none, db1)

/-- QuestionService.update_mcq_options: on a non-empty dump rewrites the
present fields on every mcq_options row whose question_id matches, then
unconditionally re-fetches the assembled question. -/
def QuestionService.update_mcq_options (db : DB) (qid : Nat) (u : MCQOptionUpdate) :
    Option AssembledQuestion × DB :=
  let db1 : DB :=
    if MCQOptionUpdate.isEmptyDump u then db
    else { db with
      mcq_options := db.mcq_options.map (fun o =>
        if o.question_id = qid then applyMCQOptionUpdate u o else o) }
  (QuestionService.get_question_by_id db1 qid, db1)

/-- QuestionService.delete_question: soft delete, sets is_active to false on
every questions row whose id matches and reports whether any row was
affected; detail rows are never touched. -/
def QuestionService.delete_question (db : DB) (qid : Nat) : Bool × DB :=
  let matched := db.questions.filter (fun q => q.id = qid)
  let db1 : DB := { db with
    questions := db.questions.map (fun q =>
      if q.id = qid then { q with is_active := false } else q) }
  (matched.length > 0, db1)

/-- Route PUT /questions/{id} (app/routes/question.py update_question):
institution role required, 404 when the question is missing, and no
ownership check of any kind before the service call. -/
def QuestionRoutes.update_question (db : DB) (qid : Nat) (u : QuestionUpdate)
    (p : Principal) : Except HTTPError (Option AssembledQuestion) × DB :=
  match requireRole "institution" p with
  | .error e => (.error e, db)
  | .ok _ =>
    match QuestionService.get_question_by_id db qid with
    | none => (.error ⟨404, "Question not found!"⟩, db)
    | some _ =>
      let r : Option AssembledQuestion × DB := QuestionService.update_question db qid u
      (.ok r.1, r.2)

/-- Route PUT /questions/{id}/mcq-options (app/routes/question.py
update_mcq_options): institution role required, 404 when the question is
missing, 400 before any service call when the question type is not mcq, and
no ownership check of any kind. -/
def QuestionRoutes.update_mcq_options (db : DB) (qid : Nat) (u : MCQOptionUpdate)
    (p : Principal) : Except HTTPError (Option AssembledQuestion) × DB :=
  match requireRole "institution" p with
  | .error e => (.error e, db)
  | .ok _ =>
    match QuestionService.get_question_by_id db qid with
    | none => (.error ⟨404, "Question not found!"⟩, db)
    | some q =>
      if q.base.question_type ≠ "mcq" then
        (.error ⟨400, "Not an MCQ question!"⟩, db)
      else
        let r : Option AssembledQuestion × DB := QuestionService.update_mcq_options db qid u
        (.ok r.1, r.2)

/-- Route DELETE /questions/{id} (app/routes/question.py delete_question):
institution role required, 404 when the question is missing, no ownership
check of any kind; returns the deleted id. -/
def QuestionRoutes.delete_question (db : DB) (qid : Nat) (p : Principal) :
    Except HTTPError Nat × DB :=
  match requireRole "institution" p with
  | .error e => (.error e, db)
  | .ok _ =>
    match QuestionService.get_question_by_id db qid with
    | none => (.error ⟨404, "Question not found!"⟩, db)
    | some _ =>
      let r : Bool × DB := QuestionService.delete_question db qid
      if r.1 then (.ok qid, r.2) else (.error ⟨500, "Failed to delete"⟩, r.2)

/-- Head of a filtered list when exactly one element can satisfy the
predicate: the unique satisfying member is returned. -/
theorem head_filter_unique {α : Type} (l : List α) (p : α → Bool) (t : α)
    (ht : t ∈ l) (hp : p t = true) (huniq : ∀ r ∈ l, p r = true → r = t) :
    (l.filter p).head? = some t := by
  induction l with
  | nil => cases ht
  | cons a l ih =>
    by_cases ha : p a = true
    · have : a = t := huniq a (List.mem_cons_self a l) ha
      simp [List.filter_cons, ha, this, hp]
    · have hat : t ≠ a := by
        intro h
        rw [h] at hp
        exact ha hp
      have ht' : t ∈ l := by
        rcases List.mem_cons.mp ht with h | h
        · exact absurd h hat
        · exact h
      have hp' : ∀ r ∈ l, p r = true → r = t := fun r hr hpr =>
        huniq r (List.mem_cons_of_mem a hr) hpr
      simp only [List.filter_cons, if_neg ha]
      simpa [ha] using ih ht' hp'

/-- Filtering a guarded in-place rewrite: when the rewrite preserves the
predicate, filtering the rewritten table equals rewriting the filtered
rows. -/
theorem filter_map_update {α : Type} (l : List α) (q : α → Prop) [DecidablePred q]
    (f : α → α) (hf : ∀ x, q (f x) ↔ q x) :
    (l.map (fun r => if q r then f r else r)).filter (fun r => decide (q r))
      = (l.filter (fun r => decide (q r))).map f := by
  induction l with
  | nil => rfl
  | cons a l ih =>
    by_cases ha : q a
    · simp [List.filter_cons, ha, (hf a).mpr ha, ih]
    · simp [List.filter_cons, ha, ih]

/-- Splitting a filtered count along a second predicate: rows satisfying p
are exactly the rows satisfying p with q plus those satisfying p without
q. -/
theorem length_filter_split {α : Type} (l : List α) (p q : α → Bool) :
    (l.filter p).length
      = (l.filter (fun x => p x && q x)).length
        + (l.filter (fun x => p x && !(q x))).length := by
  induction l with
  | nil => rfl
  | cons a l ih =>
    by_cases hp : p a = true
    · by_cases hq : q a = true
      · simp [List.filter_cons, hp, hq, ih]
        omega
      · simp [Bool.not_eq_true] at hq
        simp [List.filter_cons, hp, hq, ih]
        omega
    · simp [Bool.not_eq_true] at hp
      simp [List.filter_cons, hp, ih]

/-- Membership in one page of an ordered listing implies membership in the
unordered matching set. -/
theorem mem_page {α : Type} (l : List α) (r : α → α → Prop) [DecidableRel r]
    (off lim : Nat) (x : α)
    (hx : x ∈ ((l.insertionSort r).drop off).take lim) : x ∈ l := by
  have h1 : x ∈ l.insertionSort r := List.mem_of_mem_drop (List.mem_of_mem_take hx)
  exact (List.mem_insertionSort r).mp h1

/-- Claim C1: with a profile already stored for the principal, the profile
creation route answers Bad Request 400 with the duplicate-profile detail and
leaves the database, hence the already-existing profile row, unchanged; the
service layer likewise refuses with its Conflict exception and changes
nothing. -/
theorem C1_duplicate_profile_create_rejected (db : DB) (p : Principal)
    (pd : ProfileCreate) (pid now : Nat) (r : ProfileRow)
    (hex : ProfileService.get_profile_by_user_id db p.id = some r) :
    ProfileRoutes.create_profile db p pd pid now
      = (.error ⟨400, "Profile already exists for this user"⟩, db)
    ∧ ProfileService.create_profile db pd p.id pid now
      = (.error "Profile already exists for this user", db) := by
  have hne : db.profiles.filter (fun x => x.user_id = p.id) ≠ [] := by
    intro hnil
    unfold ProfileService.get_profile_by_user_id at hex
    rw [hnil] at hex
    simp at hex
  constructor
  · simp [ProfileRoutes.create_profile, hex]
  · simp [ProfileService.create_profile, hne]

/-- Stored profile row used by concrete evaluations. -/
def profileW : ProfileRow :=
  { id := 7, user_id := 1, full_name := "Existing User", email := "e@example.com",
    phone := none, bio := none, date_of_birth := "2000-05-15", avatar_url := none,
    gender := none, city := none, state := "Madhya Pradesh", country := "India",
    role := "user", is_active := true, created_at := 3, updated_at := 3 }

/-- Database holding exactly the one stored profile row. -/
def dbW : DB :=
  { profiles := [profileW], tests := [], questions := [], mcq_options := [],
    theory_details := [], coding_details := [], test_attempts := [] }

/-- ProfileCreate payload used by concrete evaluations. -/
def pdW : ProfileCreate :=
  { user_id := 1, full_name := "Second Try", email := "e@example.com", phone := none,
    bio := none, date_of_birth := "2000-05-15", avatar_url := none, gender := none,
    city := none, state := .madhya_pradesh, country := .india, role := .user }

/-- Witness for C1 at a concrete database holding one profile for user 1. -/
theorem C1_duplicate_profile_create_rejected_witness :
    ProfileRoutes.create_profile dbW ⟨1, "user"⟩ pdW 8 5
      = (.error ⟨400, "Profile already exists for this user"⟩, dbW) :=
  (C1_duplicate_profile_create_rejected dbW ⟨1, "user"⟩ pdW 8 5 profileW rfl).1

/-- Claim C2: with an authenticated institution principal that is not the
creator of an existing test, each of the update, publish, unpublish and
delete routes answers Forbidden 403 and leaves the database, hence the test,
unchanged, while the get-by-id route has no principal at all and returns the
test to any caller. -/
theorem C2_test_mutation_ownership_gated (db : DB) (tid : Nat) (u : TestUpdate)
    (p : Principal) (tc : TestWithCount)
    (hrole : p.role = "institution")
    (hex : TestService.get_test_by_id db tid = some tc)
    (hown : tc.row.created_by ≠ p.id) :
    TestRoutes.update_test db tid u p
      = (.error ⟨403, "Not authorized to update this test"⟩, db)
    ∧ TestRoutes.publish_test db tid p = (.error ⟨403, "Not authorized"⟩, db)
    ∧ TestRoutes.unpublish_test db tid p = (.error ⟨403, "Not authorized"⟩, db)
    ∧ TestRoutes.delete_test db tid p = (.error ⟨403, "Not authorized"⟩, db)
    ∧ TestRoutes.get_test db tid = .ok tc := by
  refine ⟨?_, ?_, ?_, ?_, ?_⟩ <;>
    simp [TestRoutes.update_test, TestRoutes.publish_test,
      TestRoutes.unpublish_test, TestRoutes.delete_test, TestRoutes.get_test,
      requireRole, hrole, hex, hown]

/-- Stored test row used by concrete evaluations, created by institution 10. -/
def testW : TestRow :=
  { id := 100, title := "Sample Test", description := none, difficulty := "medium",
    duration_minutes := 60, total_marks := 100, passing_marks := 40,
    created_by := 10, is_active := true, is_published := false,
    start_time := none, end_time := none, created_at := 4, updated_at := 4 }

/-- Database holding exactly the one stored test row. -/
def dbT : DB :=
  { profiles := [], tests := [testW], questions := [], mcq_options := [],
    theory_details := [], coding_details := [], test_attempts := [] }

/-- The all-absent TestUpdate payload. -/
def tuEmpty : TestUpdate :=
  { title := none, description := none, difficulty := none,
    duration_minutes := none, total_marks := none, passing_marks := none,
    is_active := none, is_published := none, start_time := none, end_time := none }

/-- Witness for C2: institution principal 20 against the test created by 10. -/
theorem C2_test_mutation_ownership_gated_witness :
    TestRoutes.update_test dbT 100 tuEmpty ⟨20, "institution"⟩
      = (.error ⟨403, "Not authorized to update this test"⟩, dbT)
    ∧ TestRoutes.get_test dbT 100 = .ok ⟨testW, 0⟩ :=
  ⟨(C2_test_mutation_ownership_gated dbT 100 tuEmpty ⟨20, "institution"⟩ ⟨testW, 0⟩
      rfl rfl (by decide)).1,
   (C2_test_mutation_ownership_gated dbT 100 tuEmpty ⟨20, "institution"⟩ ⟨testW, 0⟩
      rfl rfl (by decide)).2.2.2.2⟩

/-- Claim C6: get_test_by_id returns the first matching test row augmented
with question_count equal to the exact number of questions rows whose
test_id matches, a count which splits as active plus inactive questions, and
returns none when no tests row has the requested id. -/
theorem C6_get_test_by_id_question_count (db : DB) (tid : Nat) :
    (∀ t, (db.tests.filter (fun r => r.id = tid)).head? = some t →
      TestService.get_test_by_id db tid
        = some ⟨t, (db.questions.filter (fun q => q.test_id = tid)).length⟩)
    ∧ (db.tests.filter (fun r => r.id = tid) = [] →
      TestService.get_test_by_id db tid = none)
    ∧ (db.questions.filter (fun q => q.test_id = tid)).length
        = (db.questions.filter (fun q => q.test_id = tid && q.is_active)).length
          + (db.questions.filter (fun q => q.test_id = tid && !q.is_active)).length := by
  refine ⟨?_, ?_, ?_⟩
  · intro t h
    unfold TestService.get_test_by_id
    rw [h]
    by_cases hc : (db.questions.filter (fun q => q.test_id = tid)).length = 0
    · simp [hc]
    · simp [hc]
  · intro h
    unfold TestService.get_test_by_id
    rw [h]
    rfl
  · exact length_filter_split db.questions _ _

/-- Evaluation of get_test_by_id once the head of the filtered tests list is
known: the row is returned with the exact question count. -/
theorem get_test_by_id_of_head (db : DB) (tid : Nat) (t : TestRow)
    (h : (db.tests.filter (fun r => r.id = tid)).head? = some t) :
    TestService.get_test_by_id db tid
      = some ⟨t, (db.questions.filter (fun q => q.test_id = tid)).length⟩ := by
  unfold TestService.get_test_by_id
  rw [h]
  by_cases hc : (db.questions.filter (fun q => q.test_id = tid)).length = 0
  · simp [hc]
  · simp [hc]

/-- The detail-attachment dispatch never changes the base row it nests. -/
theorem attachDetail_base (db : DB) (q : QuestionRow) :
    (QuestionService.attachDetail db q).base = q := by
  unfold QuestionService.attachDetail
  by_cases h1 : q.question_type = "mcq"
  · cases (db.mcq_options.filter (fun o => o.question_id = q.id)).head? <;> simp [h1]
  · by_cases h2 : q.question_type = "theory"
    · cases (db.theory_details.filter (fun d => d.question_id = q.id)).head? <;>
        simp [h1, h2]
    · by_cases h3 : q.question_type = "coding"
      · cases (db.coding_details.filter (fun d => d.question_id = q.id)).head? <;>
          simp [h1, h2, h3]
      · simp [h1, h2, h3]

/-- Claim C3 (amended): a soft-deleted test never appears in the tests list
for any page, limit and filter choice, yet direct id lookup still returns it
with its question count; a soft-deleted question never appears in the
per-test question listing, yet direct id lookup still returns it assembled;
a soft-deleted profile, by contrast, remains fetchable by user_id AND also
remains in the result-set of the default profile list, whose filter set with
all-default parameters is the whole profiles table. -/
theorem C3_soft_delete_visibility (db : DB) (page limit : Nat)
    (ip : Option Bool) (cb : Option Nat) (tid2 : Nat) (qt : Option String)
    (t : TestRow) (ht : t ∈ db.tests) (hta : t.is_active = false)
    (htu : ∀ r ∈ db.tests, r.id = t.id → r = t)
    (q : QuestionRow) (hq : q ∈ db.questions) (hqa : q.is_active = false)
    (hqu : ∀ r ∈ db.questions, r.id = q.id → r = q)
    (pr : ProfileRow) (hpr : pr ∈ db.profiles) (hpa : pr.is_active = false)
    (hpu : ∀ r ∈ db.profiles, r.user_id = pr.user_id → r = pr) :
    t ∉ (TestService.get_all_tests db page limit ip cb).1
    ∧ TestService.get_test_by_id db t.id
        = some ⟨t, (db.questions.filter (fun x => x.test_id = t.id)).length⟩
    ∧ (∀ aq ∈ QuestionService.get_questions_by_test db tid2 qt,
        aq.base.is_active = true)
    ∧ QuestionService.get_question_by_id db q.id
        = some (QuestionService.attachDetail db q)
    ∧ (QuestionService.get_question_by_id db q.id).map AssembledQuestion.base = some q
    ∧ ProfileService.get_profile_by_user_id db pr.user_id = some pr
    ∧ ProfileService.profileFilters db none none none none = db.profiles := by
  have hTact : ∀ x ∈ TestService.testFilters db ip cb, x.is_active = true := by
    intro x hx
    unfold TestService.testFilters at hx
    have := (List.mem_filter.mp hx).2
    simpa using this
  have hThead : (db.tests.filter (fun r => r.id = t.id)).head? = some t := by
    refine head_filter_unique db.tests _ t ht (by simp) ?_
    intro r hr hp
    exact htu r hr (by simpa using hp)
  have hQhead : (db.questions.filter (fun x => x.id = q.id)).head? = some q := by
    refine head_filter_unique db.questions _ q hq (by simp) ?_
    intro r hr hp
    exact hqu r hr (by simpa using hp)
  have hPhead : (db.profiles.filter (fun x => x.user_id = pr.user_id)).head? = some pr := by
    refine head_filter_unique db.profiles _ pr hpr (by simp) ?_
    intro r hr hp
    exact hpu r hr (by simpa using hp)
  have hGet : QuestionService.get_question_by_id db q.id
      = some (QuestionService.attachDetail db q) := by
    unfold QuestionService.get_question_by_id
    rw [hQhead]
  refine ⟨?_, ?_, ?_, ?_, ?_, ?_, ?_⟩
  · intro hmem
    have hm : t ∈ TestService.testFilters db ip cb := by
      unfold TestService.get_all_tests at hmem
      exact mem_page _ _ _ _ _ hmem
    have := hTact t hm
    rw [hta] at this
    exact Bool.false_ne_true this
  · exact get_test_by_id_of_head db t.id t hThead
  · intro aq haq
    unfold QuestionService.get_questions_by_test at haq
    simp only [List.mem_map] at haq
    obtain ⟨x, hx, hax⟩ := haq
    have hx2 : x ∈ (db.questions.filter (fun y => y.test_id = tid2)).filter
        (fun y => y.is_active = true) := by
      have hx1 := (List.mem_insertionSort _).mp hx
      cases qt with
      | none => simpa using hx1
      | some ty => exact (List.mem_filter.mp hx1).1
    have hact : x.is_active = true := by
      have := (List.mem_filter.mp hx2).2
      simpa using this
    rw [← hax, attachDetail_base]
    exact hact
  · exact hGet
  · rw [hGet]
    simp [attachDetail_base]
  · unfold ProfileService.get_profile_by_user_id
    exact hPhead
  · rfl

/-- Soft-deleted profile row used by concrete evaluations. -/
def profileX : ProfileRow :=
  { id := 9, user_id := 2, full_name := "Ghost User", email := "g@example.com",
    phone := none, bio := none, date_of_birth := "1999-01-01", avatar_url := none,
    gender := none, city := none, state := "Madhya Pradesh", country := "India",
    role := "user", is_active := false, created_at := 2, updated_at := 2 }

/-- Soft-deleted test row used by concrete evaluations. -/
def testX : TestRow :=
  { id := 101, title := "Retired Test", description := none, difficulty := "easy",
    duration_minutes := 30, total_marks := 50, passing_marks := 20,
    created_by := 10, is_active := false, is_published := false,
    start_time := none, end_time := none, created_at := 6, updated_at := 6 }

/-- Soft-deleted question row used by concrete evaluations. -/
def questionX : QuestionRow :=
  { id := 203, test_id := 101, question_type := "theory",
    question_text := "Explain the OOP paradigm.", marks := 5, order_no := 1,
    is_active := false, created_at := 7 }

/-- Database holding one soft-deleted profile, test and question. -/
def dbC3 : DB :=
  { profiles := [profileX], tests := [testX], questions := [questionX],
    mcq_options := [], theory_details := [], coding_details := [],
    test_attempts := [] }

/-- Counterexample to claim C3 as stated: a profiles row with
is_active=false appears in the result of the default profile list (page 1,
limit 10, every filter at its default), so soft-deleted profiles are not
excluded from the default list operation. -/
theorem C3_counterexample :
    profileX.is_active = false
    ∧ profileX ∈ (ProfileService.get_all_profiles dbC3 1 10 none none none none).1 := by
  constructor
  · rfl
  · decide

/-- Witness for C3 (amended) at the concrete soft-deleted rows of dbC3. -/
theorem C3_soft_delete_visibility_witness :
    testX ∉ (TestService.get_all_tests dbC3 1 10 none none).1
    ∧ TestService.get_test_by_id dbC3 101 = some ⟨testX, 1⟩
    ∧ ProfileService.get_profile_by_user_id dbC3 2 = some profileX := by
  have h := C3_soft_delete_visibility dbC3 1 10 none none 101 none
    testX (by decide) (by decide) (by decide)
    questionX (by decide) (by decide) (by decide)
    profileX (by decide) (by decide) (by decide)
  exact ⟨h.1, h.2.1, h.2.2.2.2.2.1⟩

/-- Claim C4: for any page and limit at least 1 and any filter combination,
both list operations return at most limit rows, the page being the
limit-sized slice at offset (page-1)*limit of the ordered matching set, and
the returned total is the exact count of ALL rows matching the filter set,
independent of the requested page. -/
theorem C4_pagination_contract (db : DB) (page limit : Nat)
    (hp : 1 ≤ page) (hl : 1 ≤ limit)
    (ia : Option Bool) (role city gender : Option String)
    (ip : Option Bool) (cb : Option Nat) :
    (ProfileService.get_all_profiles db page limit ia role city gender).1.length ≤ limit
    ∧ (ProfileService.get_all_profiles db page limit ia role city gender).1
        = (((ProfileService.profileFilters db ia role city gender).insertionSort
            (fun x y => y.created_at ≤ x.created_at)).drop ((page - 1) * limit)).take limit
    ∧ (ProfileService.get_all_profiles db page limit ia role city gender).2
        = (ProfileService.profileFilters db ia role city gender).length
    ∧ (TestService.get_all_tests db page limit ip cb).1.length ≤ limit
    ∧ (TestService.get_all_tests db page limit ip cb).1
        = (((TestService.testFilters db ip cb).insertionSort
            (fun x y => y.created_at ≤ x.created_at)).drop ((page - 1) * limit)).take limit
    ∧ (TestService.get_all_tests db page limit ip cb).2
        = (TestService.testFilters db ip cb).length := by
  refine ⟨?_, rfl, ?_, ?_, rfl, ?_⟩
  · exact List.length_take_le _ _
  · unfold ProfileService.get_all_profiles
    by_cases h : (ProfileService.profileFilters db ia role city gender).length = 0
    · simp only [h]
      simp [List.length_take, List.length_drop, List.length_insertionSort, h]
    · simp [h]
  · exact List.length_take_le _ _
  · unfold TestService.get_all_tests
    by_cases h : (TestService.testFilters db ip cb).length = 0
    · simp only [h]
      simp [List.length_take, List.length_drop, List.length_insertionSort, h]
    · simp [h]

/-- Witness for C4 at the concrete single-profile and single-test database
of the other witnesses, page 1 and limit 10. -/
theorem C4_pagination_contract_witness :
    (ProfileService.get_all_profiles dbC3 1 10 none none none none).2 = 1
    ∧ (TestService.get_all_tests dbC3 1 10 none none).1.length ≤ 10 := by
  have h := C4_pagination_contract dbC3 1 10 (by decide) (by decide)
    none none none none none none
  refine ⟨?_, h.2.2.2.1⟩
  rw [h.2.2.1]
  decide

/-- Claim C5: an update with an all-absent partial payload performs no write
and returns the current row (for tests, the get-by-id dict of the unchanged
row); a non-empty partial update rewrites exactly the fields present in the
payload on the matching rows, leaves every absent field and every
non-payload column of the row untouched, and leaves rows with a different
key untouched. -/
theorem C5_partial_update_semantics (db : DB) (uid tid : Nat)
    (pu : ProfileUpdate) (tu : TestUpdate) (r : ProfileRow) (t : TestRow) :
    (ProfileUpdate.isEmptyDump pu = true →
      ProfileService.update_profile db uid pu
        = (ProfileService.get_profile_by_user_id db uid, db))
    ∧ (TestUpdate.isEmptyDump tu = true →
      TestService.update_test db tid tu
        = ((TestService.get_test_by_id db tid).map (fun tc =>
            TestDict.withCount tc.row tc.question_count), db))
    ∧ (pu.full_name = none → (applyProfileUpdate pu r).full_name = r.full_name)
    ∧ (∀ v, pu.full_name = some v → (applyProfileUpdate pu r).full_name = v)
    ∧ (pu.phone = none → (applyProfileUpdate pu r).phone = r.phone)
    ∧ (∀ v, pu.phone = some v → (applyProfileUpdate pu r).phone = some v)
    ∧ (pu.bio = none → (applyProfileUpdate pu r).bio = r.bio)
    ∧ (∀ v, pu.bio = some v → (applyProfileUpdate pu r).bio = some v)
    ∧ (pu.avatar_url = none → (applyProfileUpdate pu r).avatar_url = r.avatar_url)
    ∧ (∀ v, pu.avatar_url = some v → (applyProfileUpdate pu r).avatar_url = some v)
    ∧ (pu.date_of_birth = none →
        (applyProfileUpdate pu r).date_of_birth = r.date_of_birth)
    ∧ (∀ v, pu.date_of_birth = some v → (applyProfileUpdate pu r).date_of_birth = v)
    ∧ (pu.gender = none → (applyProfileUpdate pu r).gender = r.gender)
    ∧ (∀ v, pu.gender = some v → (applyProfileUpdate pu r).gender = some v.val)
    ∧ (pu.city = none → (applyProfileUpdate pu r).city = r.city)
    ∧ (∀ v, pu.city = some v → (applyProfileUpdate pu r).city = some v.val)
    ∧ (pu.state = none → (applyProfileUpdate pu r).state = r.state)
    ∧ (∀ v, pu.state = some v → (applyProfileUpdate pu r).state = v.val)
    ∧ (pu.country = none → (applyProfileUpdate pu r).country = r.country)
    ∧ (∀ v, pu.country = some v → (applyProfileUpdate pu r).country = v.val)
    ∧ (pu.is_active = none → (applyProfileUpdate pu r).is_active = r.is_active)
    ∧ (∀ v, pu.is_active = some v → (applyProfileUpdate pu r).is_active = v)
    ∧ (pu.role = none → (applyProfileUpdate pu r).role = r.role)
    ∧ (∀ v, pu.role = some v → (applyProfileUpdate pu r).role = v.val)
    ∧ (applyProfileUpdate pu r).id = r.id
    ∧ (applyProfileUpdate pu r).user_id = r.user_id
    ∧ (applyProfileUpdate pu r).email = r.email
    ∧ (applyProfileUpdate pu r).created_at = r.created_at
    ∧ (applyProfileUpdate pu r).updated_at = r.updated_at
    ∧ (ProfileUpdate.isEmptyDump pu = false → ∀ x ∈ db.profiles, x.user_id ≠ uid →
        x ∈ (ProfileService.update_profile db uid pu).2.profiles)
    ∧ (ProfileUpdate.isEmptyDump pu = false → ∀ x ∈ db.profiles, x.user_id = uid →
        applyProfileUpdate pu x ∈ (ProfileService.update_profile db uid pu).2.profiles)
    ∧ (tu.title = none → (applyTestUpdate tu t).title = t.title)
    ∧ (∀ v, tu.title = some v → (applyTestUpdate tu t).title = v)
    ∧ (tu.description = none → (applyTestUpdate tu t).description = t.description)
    ∧ (∀ v, tu.description = some v → (applyTestUpdate tu t).description = some v)
    ∧ (tu.difficulty = none → (applyTestUpdate tu t).difficulty = t.difficulty)
    ∧ (∀ v, tu.difficulty = some v → (applyTestUpdate tu t).difficulty = v.val)
    ∧ (tu.duration_minutes = none →
        (applyTestUpdate tu t).duration_minutes = t.duration_minutes)
    ∧ (∀ v, tu.duration_minutes = some v → (applyTestUpdate tu t).duration_minutes = v)
    ∧ (tu.total_marks = none → (applyTestUpdate tu t).total_marks = t.total_marks)
    ∧ (∀ v, tu.total_marks = some v → (applyTestUpdate tu t).total_marks = v)
    ∧ (tu.passing_marks = none → (applyTestUpdate tu t).passing_marks = t.passing_marks)
    ∧ (∀ v, tu.passing_marks = some v → (applyTestUpdate tu t).passing_marks = v)
    ∧ (tu.is_active = none → (applyTestUpdate tu t).is_active = t.is_active)
    ∧ (∀ v, tu.is_active = some v → (applyTestUpdate tu t).is_active = v)
    ∧ (tu.is_published = none → (applyTestUpdate tu t).is_published = t.is_published)
    ∧ (∀ v, tu.is_published = some v → (applyTestUpdate tu t).is_published = v)
    ∧ (tu.start_time = none → (applyTestUpdate tu t).start_time = t.start_time)
    ∧ (∀ v, tu.start_time = some v → (applyTestUpdate tu t).start_time = some v)
    ∧ (tu.end_time = none → (applyTestUpdate tu t).end_time = t.end_time)
    ∧ (∀ v, tu.end_time = some v → (applyTestUpdate tu t).end_time = some v)
    ∧ (applyTestUpdate tu t).id = t.id
    ∧ (applyTestUpdate tu t).created_by = t.created_by
    ∧ (applyTestUpdate tu t).created_at = t.created_at
    ∧ (applyTestUpdate tu t).updated_at = t.updated_at
    ∧ (TestUpdate.isEmptyDump tu = false → ∀ x ∈ db.tests, x.id ≠ tid →
        x ∈ (TestService.update_test db tid tu).2.tests)
    ∧ (TestUpdate.isEmptyDump tu = false → ∀ x ∈ db.tests, x.id = tid →
        applyTestUpdate tu x ∈ (TestService.update_test db tid tu).2.tests) := by
  refine ⟨fun h => by simp [ProfileService.update_profile, h],
    fun h => by simp [TestService.update_test, h],
    fun h => by simp [applyProfileUpdate, h],
    fun v h => by simp [applyProfileUpdate, h],
    fun h => by simp [applyProfileUpdate, h],
    fun v h => by simp [applyProfileUpdate, h],
    fun h => by simp [applyProfileUpdate, h],
    fun v h => by simp [applyProfileUpdate, h],
    fun h => by simp [applyProfileUpdate, h],
    fun v h => by simp [applyProfileUpdate, h],
    fun h => by simp [applyProfileUpdate, h],
    fun v h => by simp [applyProfileUpdate, h],
    fun h => by simp [applyProfileUpdate, h],
    fun v h => by simp [applyProfileUpdate, h],
    fun h => by simp [applyProfileUpdate, h],
    fun v h => by simp [applyProfileUpdate, h],
    fun h => by simp [applyProfileUpdate, h],
    fun v h => by simp [applyProfileUpdate, h],
    fun h => by simp [applyProfileUpdate, h],
    fun v h => by simp [applyProfileUpdate, h],
    fun h => by simp [applyProfileUpdate, h],
    fun v h => by simp [applyProfileUpdate, h],
    fun h => by simp [applyProfileUpdate, h],
    fun v h => by simp [applyProfileUpdate, h],
    rfl, rfl, rfl, rfl, rfl,
    ?_, ?_,
    fun h => by simp [applyTestUpdate, h],
    fun v h => by simp [applyTestUpdate, h],
    fun h => by simp [applyTestUpdate, h],
    fun v h => by simp [applyTestUpdate, h],
    fun h => by simp [applyTestUpdate, h],
    fun v h => by simp [applyTestUpdate, h],
    fun h => by simp [applyTestUpdate, h],
    fun v h => by simp [applyTestUpdate, h],
    fun h => by simp [applyTestUpdate, h],
    fun v h => by simp [applyTestUpdate, h],
    fun h => by simp [applyTestUpdate, h],
    fun v h => by simp [applyTestUpdate, h],
    fun h => by simp [applyTestUpdate, h],
    fun v h => by simp [applyTestUpdate, h],
    fun h => by simp [applyTestUpdate, h],
    fun v h => by simp [applyTestUpdate, h],
    fun h => by simp [applyTestUpdate, h],
    fun v h => by simp [applyTestUpdate, h],
    fun h => by simp [applyTestUpdate, h],
    fun v h => by simp [applyTestUpdate, h],
    rfl, rfl, rfl, rfl,
    ?_, ?_⟩
  · intro h x hx hne
    have hdb : (ProfileService.update_profile db uid pu).2.profiles
        = db.profiles.map (fun y =>
            if y.user_id = uid then applyProfileUpdate pu y else y) := by
      simp [ProfileService.update_profile, h]
    rw [hdb]
    exact List.mem_map.mpr ⟨x, hx, by simp [hne]⟩
  · intro h x hx heq
    have hdb : (ProfileService.update_profile db uid pu).2.profiles
        = db.profiles.map (fun y =>
            if y.user_id = uid then applyProfileUpdate pu y else y) := by
      simp [ProfileService.update_profile, h]
    rw [hdb]
    exact List.mem_map.mpr ⟨x, hx, by simp [heq]⟩
  · intro h x hx hne
    have hdb : (TestService.update_test db tid tu).2.tests
        = db.tests.map (fun y => if y.id = tid then applyTestUpdate tu y else y) := by
      simp [TestService.update_test, h]
    rw [hdb]
    exact List.mem_map.mpr ⟨x, hx, by simp [hne]⟩
  · intro h x hx heq
    have hdb : (TestService.update_test db tid tu).2.tests
        = db.tests.map (fun y => if y.id = tid then applyTestUpdate tu y else y) := by
      simp [TestService.update_test, h]
    rw [hdb]
    exact List.mem_map.mpr ⟨x, hx, by simp [heq]⟩

/-- The all-absent ProfileUpdate payload. -/
def puEmpty : ProfileUpdate :=
  { full_name := none, phone := none, bio := none, avatar_url := none,
    date_of_birth := none, gender := none, address := none, city := none,
    state := none, country := none, is_active := none, role := none }

/-- A ProfileUpdate payload carrying only a new full_name. -/
def puName : ProfileUpdate :=
  { full_name := some "Renamed User", phone := none, bio := none,
    avatar_url := none, date_of_birth := none, gender := none, address := none,
    city := none, state := none, country := none, is_active := none,
    role := none }

/-- Witness for C5: the empty update on the concrete one-profile and
one-test databases is a no-op returning the stored row, and a name-only
update rewrites full_name while keeping phone. -/
theorem C5_partial_update_semantics_witness :
    ProfileService.update_profile dbW 1 puEmpty = (some profileW, dbW)
    ∧ TestService.update_test dbT 100 tuEmpty
        = (some (TestDict.withCount testW 0), dbT)
    ∧ (applyProfileUpdate puName profileW).full_name = "Renamed User"
    ∧ (applyProfileUpdate puName profileW).phone = profileW.phone := by
  have h := C5_partial_update_semantics dbW 1 100 puEmpty tuEmpty profileW testW
  have ht := C5_partial_update_semantics dbT 1 100 puEmpty tuEmpty profileW testW
  have h2 := C5_partial_update_semantics dbW 1 100 puName tuEmpty profileW testW
  exact ⟨h.1 rfl, ht.2.1 rfl,
    h2.2.2.2.1 "Renamed User" rfl, h2.2.2.2.2.1 rfl⟩

/-- Active MCQ question row used by concrete evaluations. -/
def questionW1 : QuestionRow :=
  { id := 201, test_id := 100, question_type := "mcq",
    question_text := "Which language is best for beginners?", marks := 1,
    order_no := 1, is_active := true, created_at := 5 }

/-- Theory question row used by concrete evaluations. -/
def questionW2 : QuestionRow :=
  { id := 202, test_id := 100, question_type := "theory",
    question_text := "Explain OOP concepts in detail.", marks := 5,
    order_no := 2, is_active := false, created_at := 6 }

/-- MCQ options row of question 201. -/
def mcqW : MCQOptionsRow :=
  { question_id := 201, option_a := "Python", option_b := "Java",
    option_c := "JS", option_d := "C++", correct_option := "a",
    explanation := none }

/-- Theory details row of question 202. -/
def theoryW : TheoryDetailsRow :=
  { question_id := 202, word_limit := 500, sample_answer := none,
    keywords := none }

/-- Database holding one test with one active MCQ question and one
soft-deleted theory question. -/
def dbQ : DB :=
  { profiles := [], tests := [testW], questions := [questionW1, questionW2],
    mcq_options := [mcqW], theory_details := [theoryW], coding_details := [],
    test_attempts := [] }

/-- Witness for C6: direct lookup of the test with two stored questions, one
of them soft-deleted, reports question_count 2. -/
theorem C6_get_test_by_id_question_count_witness :
    TestService.get_test_by_id dbQ 100 = some ⟨testW, 2⟩ :=
  (C6_get_test_by_id_question_count dbQ 100).1 testW rfl

/-- Claim C7: the mcq-options update route against an existing question
whose type is not mcq answers Bad Request 400 with no state change at all,
so in particular the theory_details table is untouched. -/
theorem C7_mcq_options_type_guard (db : DB) (qid : Nat) (u : MCQOptionUpdate)
    (p : Principal) (aq : AssembledQuestion)
    (hrole : p.role = "institution")
    (hex : QuestionService.get_question_by_id db qid = some aq)
    (hty : aq.base.question_type ≠ "mcq") :
    QuestionRoutes.update_mcq_options db qid u p
      = (.error ⟨400, "Not an MCQ question!"⟩, db)
    ∧ (QuestionRoutes.update_mcq_options db qid u p).2.theory_details
        = db.theory_details := by
  have h : QuestionRoutes.update_mcq_options db qid u p
      = (.error ⟨400, "Not an MCQ question!"⟩, db) := by
    simp [QuestionRoutes.update_mcq_options, requireRole, hrole, hex, hty]
  exact ⟨h, by rw [h]⟩

/-- The all-absent MCQOptionUpdate payload. -/
def muEmpty : MCQOptionUpdate :=
  { option_a := none, option_b := none, option_c := none, option_d := none,
    correct_option := none, explanation := none }

/-- Witness for C7 at the concrete theory question 202. -/
theorem C7_mcq_options_type_guard_witness :
    QuestionRoutes.update_mcq_options dbQ 202 muEmpty ⟨10, "institution"⟩
      = (.error ⟨400, "Not an MCQ question!"⟩, dbQ) :=
  (C7_mcq_options_type_guard dbQ 202 muEmpty ⟨10, "institution"⟩
    ⟨questionW2, QuestionDetail.theory theoryW⟩ rfl rfl (by decide)).1

/-- Claim C8: creating an MCQ question with a fresh id returns, and a
subsequent fetch by that id re-assembles, the base row with the submitted
options nested exactly: option_a to option_d, explanation, and
correct_option serialized to its enum string value. -/
theorem C8_mcq_create_roundtrip (db : DB) (qd : MCQQuestionCreate) (qid now : Nat)
    (hqf : ∀ x ∈ db.questions, x.id ≠ qid)
    (hof : ∀ o ∈ db.mcq_options, o.question_id ≠ qid) :
    (QuestionService.create_mcq_question db qd qid now).1
      = some ⟨⟨qid, qd.test_id, "mcq", qd.question_text, qd.marks, qd.order_no,
          true, now⟩,
          QuestionDetail.options ⟨qid, qd.options.option_a, qd.options.option_b,
            qd.options.option_c, qd.options.option_d,
            qd.options.correct_option.val, qd.options.explanation⟩⟩
    ∧ QuestionService.get_question_by_id
        (QuestionService.create_mcq_question db qd qid now).2 qid
      = some ⟨⟨qid, qd.test_id, "mcq", qd.question_text, qd.marks, qd.order_no,
          true, now⟩,
          QuestionDetail.options ⟨qid, qd.options.option_a, qd.options.option_b,
            qd.options.option_c, qd.options.option_d,
            qd.options.correct_option.val, qd.options.explanation⟩⟩ := by
  have hq1 : db.questions.filter (fun x => x.id = qid) = [] := by
    rw [List.filter_eq_nil_iff]
    intro x hx
    simp [hqf x hx]
  have ho1 : db.mcq_options.filter (fun o => o.question_id = qid) = [] := by
    rw [List.filter_eq_nil_iff]
    intro o ho
    simp [hof o ho]
  constructor
  · rfl
  · unfold QuestionService.get_question_by_id QuestionService.create_mcq_question
      QuestionService.attachDetail
    simp [List.filter_append, hq1, ho1]

/-- MCQQuestionCreate payload used by concrete evaluations, mirroring the
round-trip example of the spec. -/
def qdW : MCQQuestionCreate :=
  { test_id := 100, question_text := "Which language is best for beginners?",
    marks := 1, order_no := 1,
    options :=
      { option_a := "Python", option_b := "Java", option_c := "JS",
        option_d := "C++", correct_option := .a, explanation := none } }

/-- Witness for C8: the concrete round trip on the question-free database. -/
theorem C8_mcq_create_roundtrip_witness :
    QuestionService.get_question_by_id
        (QuestionService.create_mcq_question dbT qdW 201 5).2 201
      = some ⟨⟨201, 100, "mcq", "Which language is best for beginners?", 1, 1,
          true, 5⟩,
          QuestionDetail.options ⟨201, "Python", "Java", "JS", "C++", "a", none⟩⟩ :=
  (C8_mcq_create_roundtrip dbT qdW 201 5 (by decide) (by decide)).2

/-- Claim C9: the question base-update, mcq-options-update and delete routes
never consult the principal beyond its role, so two institution principals
with different ids get identical outcomes on the same state (no ownership
check, unlike question creation and test mutation), and on an existing
question the base update answers success and the delete succeeds. -/
theorem C9_question_mutation_principal_independent (db : DB) (qid : Nat)
    (uq : QuestionUpdate) (um : MCQOptionUpdate) (p1 p2 : Principal)
    (h1 : p1.role = "institution") (h2 : p2.role = "institution") :
    QuestionRoutes.update_question db qid uq p1
      = QuestionRoutes.update_question db qid uq p2
    ∧ QuestionRoutes.update_mcq_options db qid um p1
        = QuestionRoutes.update_mcq_options db qid um p2
    ∧ QuestionRoutes.delete_question db qid p1
        = QuestionRoutes.delete_question db qid p2
    ∧ (∀ aq, QuestionService.get_question_by_id db qid = some aq →
        QuestionRoutes.update_question db qid uq p1
          = (.ok (QuestionService.update_question db qid uq).1,
             (QuestionService.update_question db qid uq).2))
    ∧ (∀ aq, QuestionService.get_question_by_id db qid = some aq →
        QuestionRoutes.delete_question db qid p1
          = (.ok qid, (QuestionService.delete_question db qid).2)) := by
  refine ⟨?_, ?_, ?_, ?_, ?_⟩
  · simp [QuestionRoutes.update_question, requireRole, h1, h2]
  · simp [QuestionRoutes.update_mcq_options, requireRole, h1, h2]
  · simp [QuestionRoutes.delete_question, requireRole, h1, h2]
  · intro aq hex
    simp [QuestionRoutes.update_question, requireRole, h1, hex]
  · intro aq hex
    have hne : db.questions.filter (fun q => q.id = qid) ≠ [] := by
      intro hnil
      unfold QuestionService.get_question_by_id at hex
      rw [hnil] at hex
      simp at hex
    have hpos : 0 < (db.questions.filter (fun q => q.id = qid)).length :=
      List.length_pos.mpr hne
    simp [QuestionRoutes.delete_question, requireRole, h1, hex,
      QuestionService.delete_question, hpos]

/-- Witness for C9 at the concrete MCQ question 201 and two distinct
institution principals. -/
theorem C9_question_mutation_principal_independent_witness :
    QuestionRoutes.delete_question dbQ 201 ⟨10, "institution"⟩
      = QuestionRoutes.delete_question dbQ 201 ⟨20, "institution"⟩
    ∧ QuestionRoutes.delete_question dbQ 201 ⟨10, "institution"⟩
        = (.ok 201, (QuestionService.delete_question dbQ 201).2) := by
  have h := C9_question_mutation_principal_independent dbQ 201
    { question_text := none, marks := none, order_no := none, is_active := none }
    muEmpty ⟨10, "institution"⟩ ⟨20, "institution"⟩ rfl rfl
  exact ⟨h.2.2.1, h.2.2.2.2 ⟨questionW1, QuestionDetail.options mcqW⟩ rfl⟩

/-- TestUpdate payload carrying only the lifecycle flags is_active and
is_published. -/
def tuFlags (a b : Bool) : TestUpdate :=
  { title := none, description := none, difficulty := none,
    duration_minutes := none, total_marks := none, passing_marks := none,
    is_active := some a, is_published := some b, start_time := none,
    end_time := none }

/-- Inverse reading of get_test_by_id: a successful lookup pins the head of
the filtered tests list. -/
theorem get_test_by_id_head (db : DB) (tid : Nat) (tc : TestWithCount)
    (h : TestService.get_test_by_id db tid = some tc) :
    (db.tests.filter (fun r => r.id = tid)).head? = some tc.row := by
  cases hh : (db.tests.filter (fun r => r.id = tid)).head? with
  | none =>
    unfold TestService.get_test_by_id at h
    rw [hh] at h
    exact absurd h (by simp)
  | some x =>
    have hx := get_test_by_id_of_head db tid x hh
    rw [hx] at h
    have h2 := Option.some.inj h
    rw [← h2]

/-- Claim C10: the generic test update accepts the lifecycle flags, so the
owner can set is_published and is_active through PUT /tests/id: the route
answers success with the rewritten row and the stored row afterwards carries
exactly the requested flags, bypassing the dedicated publish/unpublish
endpoints and reactivating a soft-deleted test. -/
theorem C10_generic_update_bypasses_lifecycle (db : DB) (tid : Nat)
    (p : Principal) (a b : Bool) (tc : TestWithCount)
    (hrole : p.role = "institution")
    (hex : TestService.get_test_by_id db tid = some tc)
    (hown : tc.row.created_by = p.id) :
    (TestRoutes.update_test db tid (tuFlags a b) p).1
      = .ok (some (TestDict.plain
          { tc.row with is_active := a, is_published := b }))
    ∧ (((TestRoutes.update_test db tid (tuFlags a b) p).2.tests.filter
          (fun x => x.id = tid)).head?
        = some { tc.row with is_active := a, is_published := b }) := by
  have hhead := get_test_by_id_head db tid tc hex
  have hdb : (TestRoutes.update_test db tid (tuFlags a b) p).2
      = { db with tests := db.tests.map (fun x =>
          if x.id = tid then applyTestUpdate (tuFlags a b) x else x) } := by
    simp [TestRoutes.update_test, requireRole, hrole, hex, hown,
      TestService.update_test, tuFlags, TestUpdate.isEmptyDump]
  constructor
  · simp [TestRoutes.update_test, requireRole, hrole, hex, hown,
      TestService.update_test, tuFlags, TestUpdate.isEmptyDump, hhead,
      applyTestUpdate]
  · rw [hdb]
    show ((db.tests.map (fun x =>
        if x.id = tid then applyTestUpdate (tuFlags a b) x else x)).filter
        (fun x => x.id = tid)).head?
      = some { tc.row with is_active := a, is_published := b }
    rw [filter_map_update db.tests (fun x => x.id = tid)
      (applyTestUpdate (tuFlags a b)) (fun x => Iff.rfl)]
    rw [List.head?_map, hhead]
    rfl

/-- Witness for C10: the owner publishes and reactivates the unpublished
test through the generic update route. -/
theorem C10_generic_update_bypasses_lifecycle_witness :
    (TestRoutes.update_test dbT 100 (tuFlags true true) ⟨10, "institution"⟩).1
      = .ok (some (TestDict.plain
          { testW with is_active := true, is_published := true })) :=
  (C10_generic_update_bypasses_lifecycle dbT 100 ⟨10, "institution"⟩ true true
    ⟨testW, 0⟩ rfl rfl rfl).1

end AuthTestApi
